import Mathlib

/-!
Verification of the AURA browser-extension sources against its
natural-language specification.

The development shallowly embeds the three components:

* the content script (selection tracker) — global state `selectedContent`,
  `lastSelection`, `selectedImage`, the `CONFIG` constants, and the handlers
  `handleSelectionChange`, the periodic cleanup in `monitorSelectionChanges`,
  `handleContextMenu`, `handleImageClick`, `handleVisibilityChange`,
  `clearSelection`, `handleMessage`, `isValidImage`;
* the background service worker (coordinator) — `handleGetStorage`,
  `handleSetStorage`, `handleProcessContent` and the message dispatcher;
* the popup — `showLoading`, `hideLoading`, `showError`,
  `enableActionButtons`, `disableActionButtons` and the four action
  handlers, which in this codebase are placeholders that immediately show
  an error.

JS strings are modelled as `List Char` (`Str`); `length`, `substring`,
`trim` translate to the corresponding list operations.  Timestamps
(`Date.now()`) are `Nat` milliseconds.  DOM-derived context fields
(surrounding context, bounding rectangles) do not feed back into any
tracked state or any claim, and are elided from the selection records.
-/

namespace Aura

/-- JS strings as lists of UTF-16 code units; `.length` is `List.length`. -/
abbrev Str := List Char

/-- Whitespace for `String.prototype.trim` (the characters that actually
occur in this code's inputs). -/
def isSpaceChar (c : Char) : Bool :=
  c = ' ' || c = '\t' || c = '\n' || c = '\r'

/-- JS `String.prototype.trim`: strip whitespace from both ends. -/
def trim (s : Str) : Str :=
  ((s.dropWhile isSpaceChar).reverse.dropWhile isSpaceChar).reverse

/-! ## CONFIG (content script, part_002 lines 13–19) -/

def SELECTION_TIMEOUT : Nat := 5000
def MIN_TEXT_LENGTH : Nat := 3
def MAX_TEXT_LENGTH : Nat := 10000
def IMAGE_MIN_SIZE : Nat := 50

/-! ## Selection data model -/

/-- The `{type:'text', text, timestamp, url}` object built in
`handleSelectionChange`. -/
structure TextSel where
  text : Str
  timestamp : Nat
  url : Str
deriving DecidableEq, Repr

/-- The `{type:'image', url:src, alt, width, height, timestamp, url}` object
built in `handleContextMenu` via `extractImageData`. -/
structure ImageSel where
  srcUrl : Str
  alt : Str
  width : Nat
  height : Nat
  timestamp : Nat
  pageUrl : Str
deriving DecidableEq, Repr

/-- The tagged union of the two selection shapes (`type: 'text' | 'image'`). -/
inductive Selection
  | text (s : TextSel)
  | image (i : ImageSel)
deriving DecidableEq, Repr

/-- The `timestamp` field common to both variants. -/
def Selection.timestamp : Selection → Nat
  | .text s => s.timestamp
  | .image i => i.timestamp

/-- The content script's global mutable state: `selectedContent`,
`lastSelection`, `selectedImage` (the latter holds the clicked image's
source and click time). -/
structure TrackerState where
  selectedContent : Option Selection
  lastSelection : Option Selection
  selectedImage : Option (Str × Nat)
deriving DecidableEq, Repr

/-- The initial state: all three globals `null`. -/
def initState : TrackerState :=
  { selectedContent := none, lastSelection := none, selectedImage := none }

/-! ## Content-script operations -/

/-- The qualifying-text test and selection construction performed by the
first branch of `handleSelectionChange`: trims the raw selection, requires
it to be non-empty (JS truthiness) and at least `MIN_TEXT_LENGTH` long, and
truncates to `MAX_TEXT_LENGTH` via `substring(0, MAX_TEXT_LENGTH)`. -/
def classifyText (raw : Str) (now : Nat) (pageUrl : Str) : Option Selection :=
  let selectedText := trim raw
  if selectedText ≠ [] ∧ MIN_TEXT_LENGTH ≤ selectedText.length then
    some (.text { text := selectedText.take MAX_TEXT_LENGTH
                , timestamp := now, url := pageUrl })
  else
    none

/-- Handler `handleSelectionChange` (part_002 lines 176–221).  `raw` is
`window.getSelection().toString()`; returns the new state and whether
`notifySelectionChange` fired (it fires exactly on the qualifying branch). -/
def handleSelectionChange (st : TrackerState) (now : Nat) (raw : Str)
    (pageUrl : Str) : TrackerState × Bool :=
  match classifyText raw now pageUrl with
  | some sel =>
      ({ st with selectedContent := some sel, lastSelection := some sel }, true)
  | none =>
      match st.lastSelection with
      | some ls =>
          if now - ls.timestamp < SELECTION_TIMEOUT then
            -- keep last selection a few seconds after deselection
            ({ st with selectedContent := some ls }, false)
          else
            ({ st with
                selectedContent :=
                  match st.selectedContent with
                  | some (.text _) => none
                  | other => other
              , lastSelection := none }, false)
      | none =>
          ({ st with
              selectedContent :=
                match st.selectedContent with
                | some (.text _) => none
                | other => other
            , lastSelection := none }, false)

/-- The periodic cleanup body registered by `monitorSelectionChanges`
(part_002 lines 152–159), which runs every 1000 ms: when `lastSelection`
is older than `SELECTION_TIMEOUT`, drops `selectedContent` if it is that
same selection, and drops `lastSelection`. -/
def sweep (st : TrackerState) (now : Nat) : TrackerState :=
  match st.lastSelection with
  | some ls =>
      if now - ls.timestamp > SELECTION_TIMEOUT then
        { st with
            selectedContent :=
              if st.selectedContent = some ls then none else st.selectedContent
          , lastSelection := none }
      else st
  | none => st

/-- An `<img>` element as consulted by `isValidImage` and
`extractImageData`. -/
structure ImageElement where
  tagName : Str
  src : Str
  alt : Str
  naturalWidth : Nat
  naturalHeight : Nat
  width : Nat
  height : Nat
  visible : Bool
deriving DecidableEq, Repr

/-- Predicate `isValidImage` (part_002 lines 643–665): an `IMG` tag with a non-empty
`src`, natural dimensions at least 50×50, and visible. -/
def isValidImage (img : ImageElement) : Bool :=
  if img.tagName ≠ "IMG".toList then false
  else if img.src = [] then false
  else if img.naturalWidth < IMAGE_MIN_SIZE ∨ img.naturalHeight < IMAGE_MIN_SIZE then false
  else if ¬ img.visible then false
  else true

/-- Extraction `extractImageData` (part_002 lines 506–543), restricted to the fields
carried into the selection record; `width`/`height` use
`naturalWidth || width` (JS falsy-or). -/
def extractImageData (img : ImageElement) (now : Nat) : ImageSel :=
  { srcUrl := img.src
  , alt := img.alt
  , width := if img.naturalWidth = 0 then img.width else img.naturalWidth
  , height := if img.naturalHeight = 0 then img.height else img.naturalHeight
  , timestamp := now
  , pageUrl := [] }

/-- Handler `handleContextMenu` (part_002 lines 356–373): on a right-click whose
target is a valid `IMG`, makes an image selection current and notifies the
background script; otherwise does nothing.  Returns the new state and
whether `notifySelectionChange` fired. -/
def handleContextMenu (st : TrackerState) (now : Nat) (img : ImageElement)
    (pageUrl : Str) : TrackerState × Bool :=
  if img.tagName = "IMG".toList ∧ isValidImage img then
    let data := extractImageData img now
    ({ st with selectedContent := some (.image { data with pageUrl := pageUrl }) }, true)
  else
    (st, false)

/-- Handler `handleImageClick` (part_002 lines 340–351): remembers the clicked
valid image (element reference modelled by its `src`) and the click time. -/
def handleImageClick (st : TrackerState) (now : Nat) (img : ImageElement) :
    TrackerState :=
  if img.tagName = "IMG".toList ∧ isValidImage img then
    { st with selectedImage := some (img.src, now) }
  else st

/-- Handler `handleVisibilityChange` (part_002 lines 398–405): when the page
becomes hidden, an image `selectedContent` is dropped. -/
def handleVisibilityChange (st : TrackerState) (hidden : Bool) : TrackerState :=
  if hidden then
    match st.selectedContent with
    | some (.image _) => { st with selectedContent := none }
    | _ => st
  else st

/-- Operation `clearSelection` (part_002 lines 611–621): nulls all three globals
(also invoked by the navigation observer on URL change). -/
def clearSelection (_st : TrackerState) : TrackerState := initState

/-- Read `getCurrentSelection`: the read performed by the
`GET_SELECTED_CONTENT` branch of `handleMessage` — it returns
`selectedContent` as-is. -/
def getCurrentSelection (st : TrackerState) : Option Selection :=
  st.selectedContent

/-! ## Content-script message handling (part_002 lines 410–468)

The `EXTRACT_TEXT`, `EXTRACT_IMAGE` and `SHOW_OVERLAY` branches only read
the live DOM or mutate it outside the tracker state; the message kinds
that touch or report tracker state are modelled. -/

/-- Message kinds received by the content script's `handleMessage`. -/
inductive CSMessage
  | getSelectedContent
  | ping
  | clearSelectionMsg
  | unknownKind
deriving DecidableEq, Repr

/-- Shape of the object passed to `sendResponse` by the content script.
Absent fields are `none`; a present-but-null `content` field is
`some none`. -/
structure CSResponse where
  success : Bool
  content : Option (Option Selection) := none
  status : Option Str := none
  error : Option Str := none
deriving DecidableEq, Repr

/-- Handler `handleMessage` (part_002 lines 410–468) on the modelled
message kinds: `GET_SELECTED_CONTENT` answers `{success, content}`,
`PING` answers `{success, status:'ready'}`, `CLEAR_SELECTION` runs
`clearSelection` and answers `{success}`, anything else answers the
unknown-type error.  Returns the post-state and the response. -/
def handleMessage (st : TrackerState) (m : CSMessage) :
    TrackerState × CSResponse :=
  match m with
  | .getSelectedContent =>
      (st, { success := true, content := some st.selectedContent })
  | .ping =>
      (st, { success := true, status := some "ready".toList })
  | .clearSelectionMsg =>
      (clearSelection st, { success := true })
  | .unknownKind =>
      (st, { success := false, error := some "Unknown message type".toList })

/-! ## Section 6 query contract, modelled from the spec

Modelled from the spec: the §6 interface contract
`{kind: "get-selected-content"} -> {selection: Selection | none}` and
`{kind: "ping"} -> {ready: true}`.  The code's field names differ
(`content` carries the selection payload; readiness is signalled by
`status === 'ready'`), so the contract is stated through an abstraction
from the concrete response. -/

/-- The response shapes §6 of the spec assigns to the two query
messages. -/
inductive SpecQueryAnswer
  | selectionAnswer (selection : Option Selection)
  | readyAnswer (ready : Bool)
deriving DecidableEq, Repr

/-- Abstraction from the code's response to the spec's: for a
get-selected-content query the `content` field is the spec's `selection`
payload; for a ping the spec's `ready` flag holds iff the code reported
`status: 'ready'`. -/
def toSpecAnswer (m : CSMessage) (r : CSResponse) : Option SpecQueryAnswer :=
  match m with
  | .getSelectedContent => r.content.map .selectionAnswer
  | .ping => some (.readyAnswer (r.status = some "ready".toList))
  | _ => none

/-! ## Background service worker (src/popup.js lines 465–832)

The persistent key-value store (`chrome.storage.local`) is external;
it is modelled as a map from keys to values, with `set` merging the
written object into the map and `get` returning the sub-object of
existing keys.  The handlers model the success path — the claim under
test concerns writes the store accepts; a rejected write takes the
`catch` branch and answers `{success:false, error}` instead. -/

/-- The external key-value store. -/
def Store := Str → Option Str

/-- Semantics of `chrome.storage.local.set(data)`: every key of `data` is
written, other keys are untouched. -/
def localSet (store : Store) (data : List (Str × Str)) : Store :=
  fun k => match data.lookup k with
           | some v => some v
           | none => store k

/-- Semantics of `chrome.storage.local.get(keys)`: the sub-object of the
store at the requested keys, omitting absent keys. -/
def localGet (store : Store) (keys : List Str) : List (Str × Str) :=
  keys.filterMap (fun k => (store k).map (fun v => (k, v)))

/-- Response shape produced by the background worker's storage and
process-content handlers. -/
structure BgResponse where
  success : Bool
  data : Option (List (Str × Str)) := none
  error : Option Str := none
deriving DecidableEq, Repr

/-- Handler `handleGetStorage` (src/popup.js lines 717–731): forwards the
keys to the store and answers `{success:true, data: result}` with no
transformation. -/
def handleGetStorage (store : Store) (keys : List Str) : BgResponse :=
  { success := true, data := some (localGet store keys) }

/-- Handler `handleSetStorage` (src/popup.js lines 736–749): forwards the
data object to the store and answers `{success:true}` with no
transformation. -/
def handleSetStorage (store : Store) (data : List (Str × Str)) :
    Store × BgResponse :=
  (localSet store data, { success := true })

/-- The uniform error text of `handleProcessContent`. -/
def processContentUnavailable : Str :=
  "Content processing will be implemented in future tasks".toList

/-- Handler `handleProcessContent` (src/popup.js lines 754–771): ignores
its payload and always answers `{success:false, error}`; no AI call is
made and no result data is produced. -/
def handleProcessContent (_data : Str) : BgResponse :=
  { success := false, error := some processContentUnavailable }

/-- Messages relayed by the background dispatcher
(src/popup.js lines 556–592) that reach the storage / process-content
handlers. -/
inductive BgMessage
  | getStorage (keys : List Str)
  | setStorage (data : List (Str × Str))
  | processContent (data : Str)
deriving Repr

/-- The background dispatcher's routing of the modelled message kinds to
their handlers. -/
def handleBgMessage (store : Store) (m : BgMessage) : Store × BgResponse :=
  match m with
  | .getStorage keys => (store, handleGetStorage store keys)
  | .setStorage data => handleSetStorage store data
  | .processContent data => (store, handleProcessContent data)

/-! ## Popup UI (src/unnamed/part_001)

The popup state carries `isProcessing`, `currentContent`, the `disabled`
flag of each of the four action buttons, and the hidden-class of the
loading and error panels.  A click on a disabled DOM button does not
invoke its handler, which the `click*` wrappers encode. -/

/-- The `content.type` tag the popup branches on. -/
inductive ContentKind
  | text
  | image
deriving DecidableEq, Repr

/-- Popup UI state: `isProcessing`, the four buttons' `disabled` flags,
`currentContent`, and the `hidden` class of the loading indicator and the
error display. -/
structure PopupState where
  isProcessing : Bool
  summarizeDisabled : Bool
  simplifyDisabled : Bool
  describeDisabled : Bool
  translateDisabled : Bool
  currentContent : Option ContentKind
  loadingHidden : Bool
  errorHidden : Bool
  errorMessage : Str
deriving DecidableEq, Repr

/-- Operation `disableActionButtons` (part_001 lines 309–314): sets every
action button's `disabled` flag. -/
def disableActionButtons (p : PopupState) : PopupState :=
  { p with summarizeDisabled := true, simplifyDisabled := true,
           describeDisabled := true, translateDisabled := true }

/-- Operation `enableActionButtons` (part_001 lines 292–304): resets all
buttons to disabled, then enables the ones matching the content type. -/
def enableActionButtons (p : PopupState) (kind : ContentKind) : PopupState :=
  let p := disableActionButtons p
  match kind with
  | .text =>
      { p with summarizeDisabled := false, simplifyDisabled := false,
               translateDisabled := false }
  | .image =>
      { p with describeDisabled := false, translateDisabled := false }

/-- Operation `showLoading` (part_001 lines 335–343): marks a request in
flight, reveals the loading indicator, hides the error display, and
disables all action buttons. -/
def showLoading (p : PopupState) : PopupState :=
  disableActionButtons
    { p with isProcessing := true, loadingHidden := false, errorHidden := true }

/-- Operation `hideLoading` (part_001 lines 348–356): clears the
in-flight mark, hides the loading indicator, and — when content is
present — re-enables the buttons appropriate to its type. -/
def hideLoading (p : PopupState) : PopupState :=
  let p := { p with isProcessing := false, loadingHidden := true }
  match p.currentContent with
  | some kind => enableActionButtons p kind
  | none => p

/-- Operation `showError` (part_001 lines 361–365): records the message,
reveals the error display, and runs `hideLoading`. -/
def showError (p : PopupState) (msg : Str) : PopupState :=
  hideLoading { p with errorMessage := msg, errorHidden := false }

/-- Handler `handleSummarize` (part_001 lines 458–461): placeholder that
immediately shows an error; it never issues an AI request. -/
def handleSummarize (p : PopupState) : PopupState :=
  showError p "Summarization feature will be implemented in the next task.".toList

/-- Handler `handleSimplify` (part_001 lines 463–466): placeholder. -/
def handleSimplify (p : PopupState) : PopupState :=
  showError p "Text simplification feature will be implemented in a future task.".toList

/-- Handler `handleDescribe` (part_001 lines 468–471): placeholder. -/
def handleDescribe (p : PopupState) : PopupState :=
  showError p "Image description feature will be implemented in a future task.".toList

/-- Handler `handleTranslate` (part_001 lines 473–476): placeholder. -/
def handleTranslate (p : PopupState) : PopupState :=
  showError p "Translation feature will be implemented in a future task.".toList

/-- A user click on the Summarize button: a disabled DOM button fires no
click event, so the handler runs only when the button is enabled. -/
def clickSummarize (p : PopupState) : PopupState :=
  if p.summarizeDisabled then p else handleSummarize p

/-- A user click on the Simplify button (disabled ⇒ no-op). -/
def clickSimplify (p : PopupState) : PopupState :=
  if p.simplifyDisabled then p else handleSimplify p

/-- A user click on the Describe button (disabled ⇒ no-op). -/
def clickDescribe (p : PopupState) : PopupState :=
  if p.describeDisabled then p else handleDescribe p

/-- A user click on the Translate button (disabled ⇒ no-op). -/
def clickTranslate (p : PopupState) : PopupState :=
  if p.translateDisabled then p else handleTranslate p

/-! ## Timed event traces for the grace-period claims

The content script's tracker state evolves under the 1000 ms periodic
cleanup (`sweep`) and `selectionchange` events; a trace is a list of such
timed events, folded over the state.  `GET_SELECTED_CONTENT` queries are
pure reads (`getCurrentSelection`) and can be evaluated at any point of
the trace. -/

/-- A timed tracker event: a periodic-cleanup tick, or a
`selectionchange` event carrying the raw selection string. -/
inductive GEvent
  | sweepTick (t : Nat)
  | selChange (t : Nat) (raw : Str)
deriving DecidableEq, Repr

/-- One step of the tracker under a timed event (`u` is the page URL,
unchanged along a trace with no navigation). -/
def gstep (u : Str) (st : TrackerState) : GEvent → TrackerState
  | .sweepTick t => sweep st t
  | .selChange t raw => (handleSelectionChange st t raw u).1

/-- Folding a trace of timed events over the tracker state. -/
def runTrace (u : Str) (st : TrackerState) (es : List GEvent) : TrackerState :=
  es.foldl (gstep u) st

/-! # Theorems -/

/-- C8: answering a `GET_SELECTED_CONTENT` query is a pure read — the
entire tracker state (current selection, last selection, held image) is
returned unchanged by `handleMessage`. -/
theorem getSelectedContent_pure (st : TrackerState) :
    (handleMessage st .getSelectedContent).1 = st := rfl

/-- C6: the content script answers the two §6 query messages with the
contracted shapes — a get-selected-content query is answered with the
current selection (possibly none) in the response's payload field, and a
ping is answered with readiness; concretely the code responds
`{success:true, content: selectedContent}` and
`{success:true, status:'ready'}`, which abstract to the spec's
`{selection: Selection | none}` and `{ready: true}`. -/
theorem query_messages_contract (st : TrackerState) :
    (handleMessage st .getSelectedContent).2 =
      { success := true, content := some st.selectedContent } ∧
    toSpecAnswer .getSelectedContent (handleMessage st .getSelectedContent).2 =
      some (.selectionAnswer (getCurrentSelection st)) ∧
    (handleMessage st .ping).2 =
      { success := true, status := some "ready".toList } ∧
    toSpecAnswer .ping (handleMessage st .ping).2 =
      some (.readyAnswer true) := by
  refine ⟨rfl, rfl, rfl, ?_⟩
  simp [handleMessage, toSpecAnswer]

/-- C9: for every process-content request, whatever its payload and the
store's contents, the coordinator answers `success = false` with a
non-empty explanatory error message, produces no data, and leaves the
store untouched — no AI processing is performed. -/
theorem processContent_always_unavailable (store : Store) (payload : Str) :
    handleBgMessage store (.processContent payload) =
      (store, { success := false, data := none,
                error := some processContentUnavailable }) ∧
    processContentUnavailable ≠ [] :=
  ⟨rfl, by decide⟩

/-- C7: a set-storage request the store accepts, immediately followed by a
get-storage request for one of the written keys, returns exactly the value
written: the coordinator forwards both requests with no transformation, so
the round trip is byte-identical. -/
theorem storage_roundtrip (store : Store) (data : List (Str × Str))
    (k v : Str) (h : data.lookup k = some v) :
    (handleSetStorage store data).2 = { success := true } ∧
    handleGetStorage (handleSetStorage store data).1 [k] =
      { success := true, data := some [(k, v)] } := by
  refine ⟨rfl, ?_⟩
  simp [handleGetStorage, handleSetStorage, localGet, localSet, h]

/-- The empty external store. -/
def emptyStore : Store := fun _ => none

/-- A concrete storage key used by the round-trip witness. -/
def keyA : Str := "savedContent".toList

/-- A concrete stored value used by the round-trip witness. -/
def valA : Str := "itemPayload".toList

/-- Witness for C7: the round trip evaluated at a concrete store, key and
value. -/
theorem storage_roundtrip_witness :
    ([(keyA, valA)].lookup keyA = some valA) ∧
    ((handleSetStorage emptyStore [(keyA, valA)]).2 = { success := true } ∧
     handleGetStorage (handleSetStorage emptyStore [(keyA, valA)]).1 [keyA] =
       { success := true, data := some [(keyA, valA)] }) :=
  ⟨by decide, storage_roundtrip emptyStore [(keyA, valA)] keyA valA (by decide)⟩

/-- C4: a right-click on an image whose natural width or height is below
the 50-pixel minimum tracks nothing: `isValidImage` rejects it,
`handleContextMenu` leaves the state unchanged, and no notification is
emitted. -/
theorem small_image_not_tracked (st : TrackerState) (now : Nat)
    (img : ImageElement) (u : Str)
    (h : img.naturalWidth < IMAGE_MIN_SIZE ∨ img.naturalHeight < IMAGE_MIN_SIZE) :
    isValidImage img = false ∧ handleContextMenu st now img u = (st, false) := by
  have hv : isValidImage img = false := by
    unfold isValidImage
    split_ifs <;> rfl
  refine ⟨hv, ?_⟩
  unfold handleContextMenu
  rw [if_neg]
  rintro ⟨-, hvalid⟩
  rw [hv] at hvalid
  exact Bool.false_ne_true hvalid

/-- A concrete 20×20 image (below the 50 px minimum). -/
def tinyImage : ImageElement :=
  { tagName := "IMG".toList, src := "https://x/a.png".toList,
    alt := [], naturalWidth := 20, naturalHeight := 20,
    width := 20, height := 20, visible := true }

/-- Witness for C4: the 20×20 example image from the spec is rejected and
tracks no selection from the initial state. -/
theorem small_image_not_tracked_witness :
    (tinyImage.naturalWidth < IMAGE_MIN_SIZE ∨
     tinyImage.naturalHeight < IMAGE_MIN_SIZE) ∧
    (isValidImage tinyImage = false ∧
     handleContextMenu initState 1000 tinyImage [] = (initState, false)) :=
  ⟨by decide, small_image_not_tracked initState 1000 tinyImage [] (by decide)⟩

/-- Helper: on a non-qualifying raw selection, `handleSelectionChange`
takes the keep-or-clear branches. -/
theorem handleSelectionChange_nonqual (st : TrackerState) (now : Nat)
    (raw u : Str) (hcls : classifyText raw now u = none) :
    handleSelectionChange st now raw u =
      match st.lastSelection with
      | some ls =>
          if now - ls.timestamp < SELECTION_TIMEOUT then
            ({ st with selectedContent := some ls }, false)
          else
            ({ st with
                selectedContent :=
                  match st.selectedContent with
                  | some (.text _) => none
                  | other => other
              , lastSelection := none }, false)
      | none =>
          ({ st with
              selectedContent :=
                match st.selectedContent with
                | some (.text _) => none
                | other => other
            , lastSelection := none }, false) := by
  unfold handleSelectionChange
  rw [hcls]

/-- C2: a selection event whose trimmed text is shorter than
`MIN_TEXT_LENGTH` produces no selection: `classifyText` returns none, no
notification fires (so the tracker does not enter Active), no new
selection becomes current (the current selection is either cleared, the
retained last selection, or unchanged), and no new last selection is
recorded. -/
theorem short_text_not_tracked (st : TrackerState) (now : Nat) (raw u : Str)
    (h : (trim raw).length < MIN_TEXT_LENGTH) :
    classifyText raw now u = none ∧
    (handleSelectionChange st now raw u).2 = false ∧
    ((handleSelectionChange st now raw u).1.selectedContent = none ∨
     (handleSelectionChange st now raw u).1.selectedContent = st.lastSelection ∨
     (handleSelectionChange st now raw u).1.selectedContent = st.selectedContent) ∧
    ((handleSelectionChange st now raw u).1.lastSelection = st.lastSelection ∨
     (handleSelectionChange st now raw u).1.lastSelection = none) := by
  have hng : ¬ (trim raw ≠ [] ∧ MIN_TEXT_LENGTH ≤ (trim raw).length) := by
    rintro ⟨-, hlen⟩
    omega
  have hcls : classifyText raw now u = none := by
    unfold classifyText
    simp only [if_neg hng]
  refine ⟨hcls, ?_⟩
  rw [handleSelectionChange_nonqual st now raw u hcls]
  cases hls : st.lastSelection with
  | none =>
      refine ⟨rfl, ?_, Or.inr rfl⟩
      cases hsc : st.selectedContent with
      | none => exact Or.inl rfl
      | some sel =>
          cases sel with
          | text s => exact Or.inl rfl
          | image i => exact Or.inr (Or.inr rfl)
  | some ls =>
      by_cases hrec : now - ls.timestamp < SELECTION_TIMEOUT
      · simp [if_pos hrec]
      · cases hsc : st.selectedContent with
        | none => simp [if_neg hrec]
        | some sel =>
            cases sel with
            | text s => simp [if_neg hrec]
            | image i => simp [if_neg hrec]

/-- A concrete too-short raw selection ("hi" plus surrounding space). -/
def shortRaw : Str := " hi ".toList

/-- Witness for C2: the too-short selection " hi " evaluated from the
initial state. -/
theorem short_text_not_tracked_witness :
    ((trim shortRaw).length < MIN_TEXT_LENGTH) ∧
    (classifyText shortRaw 1000 [] = none ∧
     (handleSelectionChange initState 1000 shortRaw []).2 = false ∧
     ((handleSelectionChange initState 1000 shortRaw []).1.selectedContent = none ∨
      (handleSelectionChange initState 1000 shortRaw []).1.selectedContent =
        initState.lastSelection ∨
      (handleSelectionChange initState 1000 shortRaw []).1.selectedContent =
        initState.selectedContent) ∧
     ((handleSelectionChange initState 1000 shortRaw []).1.lastSelection =
        initState.lastSelection ∨
      (handleSelectionChange initState 1000 shortRaw []).1.lastSelection = none)) :=
  ⟨by decide, short_text_not_tracked initState 1000 shortRaw [] (by decide)⟩

/-- C5: operations are mutually exclusive at the UI level.  While a
request is in flight (`showLoading`) all four action controls are
disabled and a click on any of them is a no-op, so a second invocation
cannot execute concurrently; on completion or failure (`hideLoading`,
reached by every failure path through `showError`) the in-flight mark is
cleared and exactly the controls appropriate to the current content type
are re-enabled (none change when no content is present).  The four
handlers themselves complete immediately through the failure path, never
leaving a request pending. -/
theorem operations_mutually_exclusive (p : PopupState) :
    ((showLoading p).isProcessing = true ∧
     (showLoading p).summarizeDisabled = true ∧
     (showLoading p).simplifyDisabled = true ∧
     (showLoading p).describeDisabled = true ∧
     (showLoading p).translateDisabled = true) ∧
    (clickSummarize (showLoading p) = showLoading p ∧
     clickSimplify (showLoading p) = showLoading p ∧
     clickDescribe (showLoading p) = showLoading p ∧
     clickTranslate (showLoading p) = showLoading p) ∧
    ((hideLoading p).isProcessing = false ∧
     (hideLoading p).summarizeDisabled =
       (match p.currentContent with
        | some .text => false | some .image => true
        | none => p.summarizeDisabled) ∧
     (hideLoading p).simplifyDisabled =
       (match p.currentContent with
        | some .text => false | some .image => true
        | none => p.simplifyDisabled) ∧
     (hideLoading p).describeDisabled =
       (match p.currentContent with
        | some .text => true | some .image => false
        | none => p.describeDisabled) ∧
     (hideLoading p).translateDisabled =
       (match p.currentContent with
        | some _ => false | none => p.translateDisabled)) ∧
    ((handleSummarize p).isProcessing = false ∧
     (handleSimplify p).isProcessing = false ∧
     (handleDescribe p).isProcessing = false ∧
     (handleTranslate p).isProcessing = false) := by
  refine ⟨⟨rfl, rfl, rfl, rfl, rfl⟩, ?_, ?_, ?_⟩
  · refine ⟨?_, ?_, ?_, ?_⟩ <;>
      simp [clickSummarize, clickSimplify, clickDescribe, clickTranslate,
            showLoading, disableActionButtons]
  · cases hc : p.currentContent with
    | none =>
        simp [hideLoading, hc]
    | some kind =>
        cases kind <;>
          simp [hideLoading, enableActionButtons, disableActionButtons, hc]
  · refine ⟨?_, ?_, ?_, ?_⟩ <;>
      · first
        | (show (showError _ _).isProcessing = false
           cases hc : p.currentContent with
           | none => simp [showError, hideLoading, hc]
           | some kind =>
               cases kind <;>
                 simp [showError, hideLoading, enableActionButtons,
                       disableActionButtons, hc])

/-- Well-formedness of a possibly-held selection: a text selection's
content length lies within the configured bounds (image selections and
absence are unconstrained by the claim). -/
def textWF : Option Selection → Bool
  | some (.text s) =>
      decide (MIN_TEXT_LENGTH ≤ s.text.length) &&
      decide (s.text.length ≤ MAX_TEXT_LENGTH)
  | _ => true

/-- The tracker invariant: both selection globals are well-formed (the
retained `lastSelection` can be promoted back to `selectedContent`, so it
must be covered too). -/
def SelInv (st : TrackerState) : Prop :=
  textWF st.selectedContent = true ∧ textWF st.lastSelection = true

/-- Helper: a qualifying classification stores the trimmed text truncated
to `MAX_TEXT_LENGTH`, whose length is within the bounds. -/
theorem classifyText_bounds (raw : Str) (now : Nat) (u : Str) (sel : Selection)
    (h : classifyText raw now u = some sel) :
    sel = .text { text := (trim raw).take MAX_TEXT_LENGTH
                , timestamp := now, url := u } ∧
    textWF (some sel) = true := by
  unfold classifyText at h
  by_cases hq : trim raw ≠ [] ∧ MIN_TEXT_LENGTH ≤ (trim raw).length
  · rw [if_pos hq] at h
    obtain ⟨-, hlen⟩ := hq
    obtain rfl := Option.some.injEq .. ▸ h.symm
    refine ⟨rfl, ?_⟩
    simp only [textWF, Bool.and_eq_true, decide_eq_true_eq, List.length_take]
    unfold MIN_TEXT_LENGTH MAX_TEXT_LENGTH at *
    omega
  · rw [if_neg hq] at h
    exact absurd h (by simp)

/-- Helper: on a qualifying raw selection, `handleSelectionChange` stores
the classified selection in both globals and notifies. -/
theorem handleSelectionChange_qual (st : TrackerState) (now : Nat)
    (raw u : Str) (sel : Selection)
    (h : classifyText raw now u = some sel) :
    handleSelectionChange st now raw u =
      ({ st with selectedContent := some sel, lastSelection := some sel },
       true) := by
  unfold handleSelectionChange
  rw [h]

/-- C3: every tracker operation preserves the invariant that a held text
selection's content length is between `MIN_TEXT_LENGTH` and
`MAX_TEXT_LENGTH`; moreover a qualifying selection event stores exactly
the trimmed text truncated to `MAX_TEXT_LENGTH`, so over-long text is cut
to the maximum before being stored. -/
theorem text_length_invariant (st : TrackerState) (now : Nat) (raw u : Str)
    (img : ImageElement) (hidden : Bool) (m : CSMessage)
    (h : SelInv st) :
    SelInv (handleSelectionChange st now raw u).1 ∧
    SelInv (sweep st now) ∧
    SelInv (handleContextMenu st now img u).1 ∧
    SelInv (handleImageClick st now img) ∧
    SelInv (handleVisibilityChange st hidden) ∧
    SelInv (clearSelection st) ∧
    SelInv (handleMessage st m).1 ∧
    (∀ sel, classifyText raw now u = some sel →
      (handleSelectionChange st now raw u).1.selectedContent =
        some (.text { text := (trim raw).take MAX_TEXT_LENGTH
                    , timestamp := now, url := u })) := by
  obtain ⟨hsc, hls⟩ := h
  have hinit : SelInv initState := ⟨rfl, rfl⟩
  refine ⟨?_, ?_, ?_, ?_, ?_, hinit, ?_, ?_⟩
  · -- handleSelectionChange
    cases hcl : classifyText raw now u with
    | some sel =>
        rw [handleSelectionChange_qual st now raw u sel hcl]
        obtain ⟨-, hwf⟩ := classifyText_bounds raw now u sel hcl
        exact ⟨hwf, hwf⟩
    | none =>
        rw [handleSelectionChange_nonqual st now raw u hcl]
        split
        · rename_i ls hl
          split_ifs with hrec
          · rw [hl] at hls
            refine ⟨hls, ?_⟩
            rw [hl]
            exact hls
          · refine ⟨?_, rfl⟩
            split
            · rfl
            · exact hsc
        · refine ⟨?_, rfl⟩
          split
          · rfl
          · exact hsc
  · -- sweep
    unfold sweep
    split
    · rename_i ls hl
      split_ifs with hexp heq
      · exact ⟨rfl, rfl⟩
      · exact ⟨hsc, rfl⟩
      · exact ⟨hsc, hls⟩
    · exact ⟨hsc, hls⟩
  · -- handleContextMenu
    unfold handleContextMenu
    split_ifs with hg
    · exact ⟨rfl, hls⟩
    · exact ⟨hsc, hls⟩
  · -- handleImageClick
    unfold handleImageClick
    split_ifs with hg
    · exact ⟨hsc, hls⟩
    · exact ⟨hsc, hls⟩
  · -- handleVisibilityChange
    unfold handleVisibilityChange
    split_ifs with hh
    · split
      · exact ⟨rfl, hls⟩
      · exact ⟨hsc, hls⟩
    · exact ⟨hsc, hls⟩
  · -- handleMessage
    cases m with
    | getSelectedContent => exact ⟨hsc, hls⟩
    | ping => exact ⟨hsc, hls⟩
    | clearSelectionMsg => exact hinit
    | unknownKind => exact ⟨hsc, hls⟩
  · -- truncation of qualifying selections
    intro sel hcl
    rw [handleSelectionChange_qual st now raw u sel hcl]
    obtain ⟨hside, -⟩ := classifyText_bounds raw now u sel hcl
    simp [hside]

/-- A concrete grace-state tracker whose text selection has length 19. -/
def invState : TrackerState :=
  { selectedContent :=
      some (.text { text := "The quick brown fox".toList
                  , timestamp := 4500, url := [] })
  , lastSelection :=
      some (.text { text := "The quick brown fox".toList
                  , timestamp := 4500, url := [] })
  , selectedImage := none }

/-- Witness for C3: the invariant holds of a concrete state and is
preserved by a concrete qualifying selection-change (whose stored text is
the truncated trim), a sweep, a context-menu click, an image click, a
visibility change, clearing, and a message. -/
theorem text_length_invariant_witness :
    SelInv invState ∧
    (SelInv (handleSelectionChange invState 6000 " verified text ".toList []).1 ∧
     SelInv (sweep invState 6000) ∧
     SelInv (handleContextMenu invState 6000 tinyImage []).1 ∧
     SelInv (handleImageClick invState 6000 tinyImage) ∧
     SelInv (handleVisibilityChange invState true) ∧
     SelInv (clearSelection invState) ∧
     SelInv (handleMessage invState .ping).1 ∧
     (∀ sel, classifyText " verified text ".toList 6000 [] = some sel →
       (handleSelectionChange invState 6000 " verified text ".toList []).1.selectedContent =
         some (.text { text := (trim " verified text ".toList).take MAX_TEXT_LENGTH
                     , timestamp := 6000, url := [] }))) :=
  ⟨⟨by decide, by decide⟩,
   text_length_invariant invState 6000 " verified text ".toList [] tinyImage
     true .ping ⟨by decide, by decide⟩⟩

/-- Helper: a raw selection whose trimmed text is shorter than
`MIN_TEXT_LENGTH` never classifies. -/
theorem classifyText_short (raw : Str) (now : Nat) (u : Str)
    (h : (trim raw).length < MIN_TEXT_LENGTH) :
    classifyText raw now u = none := by
  unfold classifyText
  rw [if_neg]
  rintro ⟨-, hlen⟩
  omega

/-- Predicate on a timed event: it keeps a grace-held text selection `s`
alive — sweep ticks not yet past expiry, selection changes non-qualifying
and within the 5000 ms window measured from the selection's capture
timestamp (which is what the code compares against). -/
def keepsGrace (s : TextSel) : GEvent → Bool
  | .sweepTick t => decide (¬ SELECTION_TIMEOUT < t - s.timestamp)
  | .selChange t raw =>
      decide ((trim raw).length < MIN_TEXT_LENGTH) &&
      decide (t - s.timestamp < SELECTION_TIMEOUT)

/-- Predicate on a timed event: it introduces no new qualifying
selection (sweeps never do; selection changes must be short). -/
def nonQualifying : GEvent → Bool
  | .sweepTick _ => true
  | .selChange _ raw => decide ((trim raw).length < MIN_TEXT_LENGTH)

/-- Helper: a grace state (both selection globals hold the same text
selection) is preserved by every trace of grace-keeping events. -/
theorem grace_trace_preserved (s : TextSel) (u : Str) (st : TrackerState)
    (hc : st.selectedContent = some (.text s))
    (hl : st.lastSelection = some (.text s))
    (es : List GEvent) (hes : ∀ e ∈ es, keepsGrace s e = true) :
    (runTrace u st es).selectedContent = some (.text s) ∧
    (runTrace u st es).lastSelection = some (.text s) := by
  induction es generalizing st with
  | nil => exact ⟨hc, hl⟩
  | cons e rest ih =>
      have he := hes e (List.mem_cons_self e rest)
      have hrest : ∀ e' ∈ rest, keepsGrace s e' = true :=
        fun e' h' => hes e' (List.mem_cons_of_mem e h')
      have hstep : (gstep u st e).selectedContent = some (.text s) ∧
          (gstep u st e).lastSelection = some (.text s) := by
        cases e with
        | sweepTick t =>
            have hns : ¬ SELECTION_TIMEOUT < t - s.timestamp := by
              simpa [keepsGrace] using he
            constructor <;>
              simp [gstep, sweep, hl, Selection.timestamp, hns, hc]
        | selChange t raw =>
            obtain ⟨hshort, hrec⟩ : (trim raw).length < MIN_TEXT_LENGTH ∧
                t - s.timestamp < SELECTION_TIMEOUT := by
              simpa [keepsGrace] using he
            have hcls := classifyText_short raw t u hshort
            constructor <;>
              simp [gstep, handleSelectionChange_nonqual _ _ _ _ hcls, hl,
                    Selection.timestamp, hrec, hc]
      simpa [runTrace, List.foldl] using
        ih (gstep u st e) hstep.1 hstep.2 hrest

/-- Helper: once both selection globals are cleared, any trace of
non-qualifying events leaves them cleared. -/
theorem cleared_trace (u : Str) (st : TrackerState)
    (hc : st.selectedContent = none) (hl : st.lastSelection = none)
    (es : List GEvent) (hes : ∀ e ∈ es, nonQualifying e = true) :
    (runTrace u st es).selectedContent = none ∧
    (runTrace u st es).lastSelection = none := by
  induction es generalizing st with
  | nil => exact ⟨hc, hl⟩
  | cons e rest ih =>
      have he := hes e (List.mem_cons_self e rest)
      have hrest : ∀ e' ∈ rest, nonQualifying e' = true :=
        fun e' h' => hes e' (List.mem_cons_of_mem e h')
      have hstep : (gstep u st e).selectedContent = none ∧
          (gstep u st e).lastSelection = none := by
        cases e with
        | sweepTick t =>
            constructor <;> simp [gstep, sweep, hl, hc]
        | selChange t raw =>
            have hshort : (trim raw).length < MIN_TEXT_LENGTH := by
              simpa [nonQualifying] using he
            have hcls := classifyText_short raw t u hshort
            constructor <;>
              simp [gstep, handleSelectionChange_nonqual _ _ _ _ hcls, hl, hc]
      simpa [runTrace, List.foldl] using
        ih (gstep u st e) hstep.1 hstep.2 hrest

/-- C1 (amended): a selection held in the Grace state is still returned
by `getCurrentSelection` at every point while only grace-keeping events
occur (sweep ticks before expiry, non-qualifying selection changes inside
the 5000 ms window measured from the selection's capture timestamp);
after expiry the selection is dropped by the next cleanup event — a
periodic sweep tick, or any non-qualifying selection change — and from
then on `getCurrentSelection` returns none for as long as only
non-qualifying events occur.  (Between expiry and that next cleanup event
the stale selection is still returned; the original claim's "returns none
at every point after the timer elapses" fails there, see the
counterexample.) -/
theorem grace_selection_lifetime (s : TextSel) (u : Str) (st : TrackerState)
    (hc : st.selectedContent = some (.text s))
    (hl : st.lastSelection = some (.text s))
    (es : List GEvent) (hes : ∀ e ∈ es, keepsGrace s e = true) :
    getCurrentSelection (runTrace u st es) = some (.text s) ∧
    (∀ t, SELECTION_TIMEOUT < t - s.timestamp →
       getCurrentSelection (sweep (runTrace u st es) t) = none ∧
       (sweep (runTrace u st es) t).lastSelection = none) ∧
    (∀ t raw, (trim raw).length < MIN_TEXT_LENGTH →
       ¬ t - s.timestamp < SELECTION_TIMEOUT →
       getCurrentSelection (handleSelectionChange (runTrace u st es) t raw u).1 = none ∧
       (handleSelectionChange (runTrace u st es) t raw u).1.lastSelection = none) ∧
    (∀ st2 : TrackerState, st2.selectedContent = none → st2.lastSelection = none →
       ∀ es2 : List GEvent, (∀ e ∈ es2, nonQualifying e = true) →
         getCurrentSelection (runTrace u st2 es2) = none) := by
  obtain ⟨hc', hl'⟩ := grace_trace_preserved s u st hc hl es hes
  refine ⟨hc', ?_, ?_, ?_⟩
  · intro t ht
    constructor <;>
      simp [getCurrentSelection, sweep, hl', Selection.timestamp, ht, hc']
  · intro t raw hshort hstale
    have hcls := classifyText_short raw t u hshort
    constructor <;>
      simp [getCurrentSelection, handleSelectionChange_nonqual _ _ _ _ hcls,
            hl', Selection.timestamp, hstale, hc']
  · intro st2 hc2 hl2 es2 hes2
    exact (cleared_trace u st2 hc2 hl2 es2 hes2).1

/-- A concrete page URL shared by the concrete scenarios. -/
def u0 : Str := "https://example.org/page".toList

/-- A concrete text selection captured at t = 4500 ms. -/
def graceSel : TextSel :=
  { text := "The quick brown fox".toList, timestamp := 4500, url := u0 }

/-- A concrete Grace state holding `graceSel`. -/
def graceSt : TrackerState :=
  { selectedContent := some (.text graceSel)
  , lastSelection := some (.text graceSel)
  , selectedImage := none }

/-- The periodic 1000 ms sweep ticks up to time 9700 (ticks at 5000 …
9000; the next tick, 10000, has not yet fired). -/
def periodicSweeps : List GEvent :=
  [.sweepTick 5000, .sweepTick 6000, .sweepTick 7000,
   .sweepTick 8000, .sweepTick 9000]

/-- Every tracker event up to time 9700 in the counterexample scenario:
the periodic sweep fires each 1000 ms from script load, the user selects
"The quick brown fox" at 4500 ms, deselects at 4600 ms (entering Grace),
and no further selection change, navigation, or query-side event occurs. -/
def expiryTrace : List GEvent :=
  [.sweepTick 1000, .sweepTick 2000, .sweepTick 3000, .sweepTick 4000,
   .selChange 4500 "The quick brown fox".toList,
   .selChange 4600 [],
   .sweepTick 5000, .sweepTick 6000, .sweepTick 7000,
   .sweepTick 8000, .sweepTick 9000]

/-- Counterexample to C1 as stated: the retained selection's grace timer
has elapsed by 9700 ms whether measured from capture (4500 + 5000 = 9500,
which is what the code compares) or from deselection (4600 + 5000 =
9600), yet at 9700 ms — before the next sweep tick at 10000 ms —
`getCurrentSelection` still returns the selection, not none.  The code
clears lazily (on the next sweep tick or selection-change event), so
"returns none at every point after it elapses" is false. -/
theorem grace_query_after_expiry_counterexample :
    SELECTION_TIMEOUT < 9700 - graceSel.timestamp ∧
    SELECTION_TIMEOUT < 9700 - 4600 ∧
    getCurrentSelection (runTrace u0 initState expiryTrace) =
      some (.text graceSel) := by
  refine ⟨?_, ?_, ?_⟩ <;> decide

/-- Witness for C1 (amended): the concrete Grace state survives the five
pre-expiry sweep ticks and the amended clauses hold there. -/
theorem grace_selection_lifetime_witness :
    graceSt.selectedContent = some (.text graceSel) ∧
    graceSt.lastSelection = some (.text graceSel) ∧
    (∀ e ∈ periodicSweeps, keepsGrace graceSel e = true) ∧
    getCurrentSelection (runTrace u0 graceSt periodicSweeps) =
      some (.text graceSel) :=
  ⟨rfl, rfl, by decide,
   (grace_selection_lifetime graceSel u0 graceSt rfl rfl periodicSweeps
      (by decide)).1⟩

/-- Truth-value of "the held selection is text or absent": the
`lastSelection` global is only ever assigned text selections by the code,
which is what lets the sweep clear only text. -/
def isTextOrNone : Option Selection → Bool
  | some (.image _) => false
  | _ => true

/-- C10 (amended): an image selection made current by a qualifying
right-click is never expired by the periodic sweep (which only clears a
current selection equal to the retained last text selection), and it
survives any non-qualifying selection change made while the last text
selection's grace window is closed; however a non-qualifying selection
change made while that window is still open restores the old text
selection as current (this path is what the original claim's list of
termination causes omits).  Page hiding, clearing, and a newer qualifying
image right-click end it as claimed. -/
theorem image_selection_persistence (st : TrackerState) (i : ImageSel)
    (now : Nat) (raw u : Str) (img : ImageElement)
    (hc : st.selectedContent = some (.image i))
    (hl : isTextOrNone st.lastSelection = true) :
    (sweep st now).selectedContent = some (.image i) ∧
    ((trim raw).length < MIN_TEXT_LENGTH →
      (handleSelectionChange st now raw u).1.selectedContent =
        (match st.lastSelection with
         | some ls =>
             if now - ls.timestamp < SELECTION_TIMEOUT then some ls
             else some (.image i)
         | none => some (.image i))) ∧
    (handleVisibilityChange st true).selectedContent = none ∧
    (clearSelection st).selectedContent = none ∧
    (isValidImage img = true → img.tagName = "IMG".toList →
      (handleContextMenu st now img u).1.selectedContent =
        some (.image { extractImageData img now with pageUrl := u })) := by
  refine ⟨?_, ?_, ?_, rfl, ?_⟩
  · unfold sweep
    split
    · rename_i ls hls2
      cases ls with
      | text t =>
          split_ifs with hexp heq
          · simp [hc] at heq
          · exact hc
          · exact hc
      | image im =>
          rw [hls2] at hl
          exact absurd hl (by simp [isTextOrNone])
    · exact hc
  · intro hshort
    rw [handleSelectionChange_nonqual _ _ _ _ (classifyText_short raw now u hshort)]
    cases hls2 : st.lastSelection with
    | none => simp [hc]
    | some ls =>
        by_cases hrec : now - ls.timestamp < SELECTION_TIMEOUT
        · simp [hrec]
        · simp [hrec, hc]
  · simp [handleVisibilityChange, hc]
  · intro hval htag
    unfold handleContextMenu
    rw [if_pos ⟨htag, hval⟩]

/-- A concrete current image selection captured at t = 2000 ms. -/
def heldImage : ImageSel :=
  { srcUrl := "https://x/pic.png".toList, alt := [], width := 300,
    height := 200, timestamp := 2000, pageUrl := u0 }

/-- A concrete tracker holding `heldImage` with no last text selection. -/
def imgSt : TrackerState :=
  { selectedContent := some (.image heldImage)
  , lastSelection := none
  , selectedImage := none }

/-- A concrete valid 300×200 image element. -/
def bigImage : ImageElement :=
  { tagName := "IMG".toList, src := "https://x/pic.png".toList, alt := [],
    naturalWidth := 300, naturalHeight := 200, width := 300, height := 200,
    visible := true }

/-- Witness for C10 (amended): the held image survives a late sweep and
an empty selection change from the concrete state with no retained text
selection. -/
theorem image_selection_persistence_witness :
    imgSt.selectedContent = some (.image heldImage) ∧
    isTextOrNone imgSt.lastSelection = true ∧
    (sweep imgSt 999999).selectedContent = some (.image heldImage) :=
  ⟨rfl, rfl,
   (image_selection_persistence imgSt heldImage 999999 [] u0 bigImage
      rfl rfl).1⟩

/-- A concrete old text selection captured at t = 1000 ms. -/
def oldTextSel : TextSel :=
  { text := "old grace text".toList, timestamp := 1000, url := u0 }

/-- A concrete tracker holding `heldImage` as current while `oldTextSel`
is still inside its grace window. -/
def imgWithGraceSt : TrackerState :=
  { selectedContent := some (.image heldImage)
  , lastSelection := some (.text oldTextSel)
  , selectedImage := none }

/-- Counterexample to C10 as stated: an empty (hence non-qualifying)
selectionchange at t = 3000 — which is none of page navigation, the page
becoming hidden, a CLEAR_SELECTION request, or a newer qualifying
selection — ends the image selection's tenure, restoring the older
retained text selection as current. -/
theorem image_replaced_by_grace_counterexample :
    classifyText [] 3000 u0 = none ∧
    (handleSelectionChange imgWithGraceSt 3000 [] u0).1.selectedContent =
      some (.text oldTextSel) ∧
    (handleSelectionChange imgWithGraceSt 3000 [] u0).1.selectedContent ≠
      imgWithGraceSt.selectedContent := by
  refine ⟨?_, ?_, ?_⟩ <;> decide

end Aura
